import Mathlib

/-!
Shallow embedding of the_board's Plan/Task orchestration engine.

The durable state store is `src/state/store.py` (class `SQLiteStateStore`);
the sequential runner is `src/orchestration/runner.py` (`run_plan`); the
HTTP control surface is `src/api/state_routes.py`.  SQL rows become Lean
structures, tables become lists in insertion order, `func.now()` timestamps
become a strictly increasing `Nat` clock ticked once per inserted row, and
every store method that runs inside `engine.begin()` becomes one total
function from store to store (an `Except` error means the transaction rolled
back: the caller keeps the old store).  JSON payloads, whose contents no
property here inspects, are carried as plain strings.

The runner and the synthesizer call a second, raw-SQL `StateStore`
(`get_pending_tasks`, `update_task_status`, `update_plan_status`,
`record_event`, `save_final_plan`, `increment_task_attempts`) whose module is
not part of the sources; only its callers and its test suite are.  Those
methods are modelled from the specification and each carries a doc comment
saying so.
-/

namespace TheBoard

set_option maxRecDepth 16384

/-- Task lifecycle states, `TaskState` in src/state/store.py (identical to
`TaskStatus` in src/models/dataModel.py, whose string values coincide). -/
inductive TaskState where
  | pending
  | in_progress
  | completed
  | failed
  | escalated
  | cancelled
deriving DecidableEq, Repr, BEq

/-- The string value of a task state, as stored in the SQL enum column. -/
def TaskState.str : TaskState → String
  | .pending => "pending"
  | .in_progress => "in_progress"
  | .completed => "completed"
  | .failed => "failed"
  | .escalated => "escalated"
  | .cancelled => "cancelled"

/-- A row of the `plans` table.  The SQLAlchemy table has columns plan_id,
original_query, status, created_at; `closed_at` is modelled from the spec
(§3 Plan invariant) because the raw-SQL store that owns plan closure is not
in the sources. -/
structure PlanRecord where
  plan_id : String
  original_query : String
  status : String
  created_at : Nat
  closed_at : Option Nat
deriving DecidableEq, Repr, BEq

/-- A row of the `tasks` table (src/state/store.py). -/
structure TaskRecord where
  task_id : String
  plan_id : String
  agent : String
  description : String
  state : TaskState
  attempts : Nat
  last_error : Option String
  created_at : Nat
  updated_at : Nat
deriving DecidableEq, Repr, BEq

/-- A row of the `responses` table (src/state/store.py).  The Python float
confidence is modelled as a rational. -/
structure AgentResponseRecord where
  response_id : String
  task_id : String
  agent : String
  confidence : Option Rat
  content : String
  citations : Option (List String)
  created_at : Nat
deriving DecidableEq, Repr, BEq

/-- A row of the `events` table (src/state/store.py); the JSON payload is
carried as an uninterpreted string. -/
structure EventRecord where
  event_id : String
  plan_id : String
  task_id : Option String
  kind : String
  payload : String
  created_at : Nat
deriving DecidableEq, Repr, BEq

/-- The whole durable state: the three append/update tables and the response
table of `SQLiteStateStore`, plus the `final_plans` upsert table of the
raw-SQL store (spec §6: "three append/update tables ... plus one upsert
table"), with a clock supplying `func.now()` timestamps. -/
structure Store where
  plans : List PlanRecord
  tasks : List TaskRecord
  responses : List AgentResponseRecord
  events : List EventRecord
  final_plans : List (String × String)
  clock : Nat
deriving DecidableEq, Repr, BEq

/-- The empty database, as `meta.create_all` leaves it. -/
def Store.empty : Store := ⟨[], [], [], [], [], 0⟩

/-- `_stable_id` in src/state/store.py: the SHA-256 digest of the parts
joined by NUL bytes, truncated to 24 hex chars.  Modelled as the injective
NUL-separated concatenation itself: the source relies on the hash being
collision-free on distinct part tuples, which the model idealizes. -/
def stable_id (parts : List String) : String :=
  String.intercalate "\x00" parts

/-- Errors surfaced by store transactions.  `integrityError` is SQLAlchemy's
IntegrityError on a primary-key conflict; it aborts the enclosing
`engine.begin()` transaction, rolling back every statement in it. -/
inductive StoreError where
  | integrityError (key : String)
deriving DecidableEq, Repr, BEq

namespace Store

/-- Row lookup by task primary key (the `select ... where task_id ==` used
throughout store.py). -/
def findTask (s : Store) (task_id : String) : Option TaskRecord :=
  s.tasks.find? (fun t => t.task_id == task_id)

/-- Row lookup by plan primary key. -/
def findPlan (s : Store) (plan_id : String) : Option PlanRecord :=
  s.plans.find? (fun p => p.plan_id == plan_id)

/-- `UPDATE tasks SET ... WHERE task_id = tid`: applies `f` to every row with
the given key (at most one, the key being primary).  The SQLAlchemy table
declares `onupdate=func.now()` on updated_at, so `f` is responsible for
bumping it. -/
def updateTasks (s : Store) (task_id : String) (f : TaskRecord → TaskRecord) : Store :=
  { s with tasks := s.tasks.map (fun t => if t.task_id == task_id then f t else t) }

/-- `UPDATE plans SET ... WHERE plan_id = pid`. -/
def updatePlans (s : Store) (plan_id : String) (f : PlanRecord → PlanRecord) : Store :=
  { s with plans := s.plans.map (fun p => if p.plan_id == plan_id then f p else p) }

/-- `INSERT INTO events ...`: event_id is the primary key, so inserting a
duplicate raises IntegrityError; otherwise the row is appended with the
current clock as created_at and the clock ticks. -/
def insertEvent (s : Store) (event_id plan_id : String) (task_id : Option String)
    (kind payload : String) : Except StoreError Store :=
  if s.events.any (fun e => e.event_id == event_id) then
    .error (.integrityError event_id)
  else
    .ok { s with
      events := s.events ++ [⟨event_id, plan_id, task_id, kind, payload, s.clock⟩],
      clock := s.clock + 1 }

end Store

/-!
Operations of `SQLiteStateStore` (src/state/store.py), one Lean function
per Python method, each modelling the method's single `engine.begin()`
transaction.
-/

namespace SQLiteStateStore

open Store

/-- `create_plan` (store.py:168): insert the plan row with status "open",
insert a `plan_created` event, return the plan.  The caller-supplied
`plan_id` stands for the explicit argument (the Python default derives one
from the goal and the wall clock). -/
def create_plan (s : Store) (original_query plan_id : String) :
    Except StoreError (PlanRecord × Store) :=
  if s.plans.any (fun p => p.plan_id == plan_id) then
    .error (.integrityError plan_id)
  else
    let p : PlanRecord := ⟨plan_id, original_query, "open", s.clock, none⟩
    let s1 : Store := { s with plans := s.plans ++ [p], clock := s.clock + 1 }
    match s1.insertEvent (stable_id ["evt", plan_id, "created"]) plan_id none
        "plan_created" original_query with
    | .error e => .error e
    | .ok s2 => .ok (p, s2)

/-- `add_task` (store.py:208): insert the task row with state pending and
attempts 0, insert a `task_created` event, return the task. -/
def add_task (s : Store) (plan_id agent description task_id : String) :
    Except StoreError (TaskRecord × Store) :=
  if s.tasks.any (fun t => t.task_id == task_id) then
    .error (.integrityError task_id)
  else
    let t : TaskRecord := ⟨task_id, plan_id, agent, description, .pending, 0, none, s.clock, s.clock⟩
    let s1 : Store := { s with tasks := s.tasks ++ [t], clock := s.clock + 1 }
    match s1.insertEvent (stable_id ["evt", plan_id, task_id, "task_created"]) plan_id
        (some task_id) "task_created" agent with
    | .error e => .error e
    | .ok s2 => .ok (t, s2)

/-- `close_plan` (store.py:181): set the plan's status to "closed"
(no closed_at column exists in this table) and insert a `plan_closed`
event. -/
def close_plan (s : Store) (plan_id : String) : Except StoreError Store :=
  let s1 := s.updatePlans plan_id (fun p => { p with status := "closed" })
  s1.insertEvent (stable_id ["evt", plan_id, "closed"]) plan_id none "plan_closed" ""

/-- `cancel_plan` (store.py:189): set the plan's status to "cancelled", set
the state of every task row of the plan to cancelled with no condition on
the task's current state, and insert one plan-level `plan_cancelled`
event. -/
def cancel_plan (s : Store) (plan_id : String) : Except StoreError Store :=
  let s1 : Store := { s with
    plans := s.plans.map (fun p => if p.plan_id == plan_id then { p with status := "cancelled" } else p),
    tasks := s.tasks.map (fun t =>
      if t.plan_id == plan_id then { t with state := .cancelled, updated_at := s.clock } else t) }
  s1.insertEvent (stable_id ["evt", plan_id, "cancelled"]) plan_id none "plan_cancelled" ""

/-- `get_plan` (store.py:198). -/
def get_plan (s : Store) (plan_id : String) : Option PlanRecord :=
  s.findPlan plan_id

/-- `get_task` (store.py:256). -/
def get_task (s : Store) (task_id : String) : Option TaskRecord :=
  s.findTask task_id

/-- `list_plan_tasks` (store.py:203): the plan's tasks ordered by
created_at, which the append-only model keeps as insertion order. -/
def list_plan_tasks (s : Store) (plan_id : String) : List TaskRecord :=
  s.tasks.filter (fun t => t.plan_id == plan_id)

/-- `set_task_state` (store.py:222): unconditionally set state and
last_error on the task row, then insert a `task_state_changed` event whose
id is derived from the plan, the task and the new state ("unknown" plan when
the task row does not exist). -/
def set_task_state (s : Store) (task_id : String) (state : TaskState)
    (error : Option String) : Except StoreError Store :=
  let s1 := s.updateTasks task_id (fun t =>
    { t with state := state, last_error := error, updated_at := s.clock })
  let pid := match s.findTask task_id with
    | some t => t.plan_id
    | none => "unknown"
  s1.insertEvent (stable_id ["evt", pid, task_id, "state_" ++ state.str]) pid
    (some task_id) "task_state_changed" state.str

/-- `record_agent_response` (store.py:236): insert the response row first;
then, only when the task exists and its state is neither failed nor
cancelled, set the task to completed and insert a `task_completed_on_response`
event; finally return the response row.  The response_id mixes in the wall
clock (modelled by the tick), the completion event id does not. -/
def record_agent_response (s : Store) (task_id agent content : String)
    (confidence : Option Rat) (citations : Option (List String)) :
    Except StoreError (AgentResponseRecord × Store) :=
  let rid := stable_id ["resp", task_id, agent, content.take 64, toString s.clock]
  if s.responses.any (fun r => r.response_id == rid) then
    .error (.integrityError rid)
  else
    let resp : AgentResponseRecord := ⟨rid, task_id, agent, confidence, content, citations, s.clock⟩
    let s1 : Store := { s with responses := s.responses ++ [resp], clock := s.clock + 1 }
    match s.findTask task_id with
    | none => .ok (resp, s1)
    | some t =>
      if t.state == .failed || t.state == .cancelled then
        .ok (resp, s1)
      else
        let s2 := s1.updateTasks task_id (fun u => { u with state := .completed, updated_at := s1.clock })
        match s2.insertEvent (stable_id ["evt", t.plan_id, task_id, "completed_on_response"])
            t.plan_id (some task_id) "task_completed_on_response" "" with
        | .error e => .error e
        | .ok s3 => .ok (resp, s3)

/-- `log_event` (store.py:261): insert one event whose id mixes in the wall
clock (modelled by the tick), return it. -/
def log_event (s : Store) (plan_id kind payload : String) (task_id : Option String) :
    Except StoreError (EventRecord × Store) :=
  let eid := stable_id ["evt", plan_id, task_id.getD "", kind, payload.take 64, toString s.clock]
  match s.insertEvent eid plan_id task_id kind payload with
  | .error e => .error e
  | .ok s1 => .ok (⟨eid, plan_id, task_id, kind, payload, s.clock⟩, s1)

/-- The default of the `limit` parameter of `list_events` (store.py:270). -/
def list_events_default_limit : Nat := 200

/-- `list_events` (store.py:270): the plan's events, narrowed to one task
when `task_id` is truthy (Python `if task_id:`, so the empty string does not
filter), ordered by created_at most recent first, truncated to `limit`
rows. -/
def list_events (s : Store) (plan_id : String) (task_id : Option String) (limit : Nat) :
    List EventRecord :=
  let base := s.events.filter (fun e => e.plan_id == plan_id)
  let base := match task_id with
    | some tid => if tid == "" then base else base.filter (fun e => e.task_id == some tid)
    | none => base
  (base.mergeSort (fun a b => decide (b.created_at ≤ a.created_at))).take limit

/-- `mark_retry` (store.py:278): with no condition on the current state,
increment attempts, set state to pending and clear last_error on the task
row, then insert a `task_retry` event whose id is derived from the plan and
the task only — it carries no attempt counter. -/
def mark_retry (s : Store) (task_id : String) : Except StoreError Store :=
  let s1 := s.updateTasks task_id (fun t =>
    { t with attempts := t.attempts + 1, state := .pending, last_error := none,
             updated_at := s.clock })
  let pid := match s.findTask task_id with
    | some t => t.plan_id
    | none => "unknown"
  s1.insertEvent (stable_id ["evt", pid, task_id, "retry"]) pid (some task_id) "task_retry" ""

/-- `cancel_task` (store.py:291): with no condition on the current state,
set the task row's state to cancelled, then insert a `task_cancelled` event
whose id is derived from the plan and the task only. -/
def cancel_task (s : Store) (task_id : String) : Except StoreError Store :=
  let s1 := s.updateTasks task_id (fun t => { t with state := .cancelled, updated_at := s.clock })
  let pid := match s.findTask task_id with
    | some t => t.plan_id
    | none => "unknown"
  s1.insertEvent (stable_id ["evt", pid, task_id, "cancel"]) pid (some task_id) "task_cancelled" ""

end SQLiteStateStore

/-- Errors surfaced at the HTTP boundary (src/api/state_routes.py):
`notFound` and `badRequest` are the raised `HTTPException(404, ...)` and
`HTTPException(400, ...)`; `validation` is FastAPI's rejection of a `Query`
argument outside its declared bounds before the handler runs; `storeFault`
is an unhandled store exception escaping the handler. -/
inductive ApiError where
  | notFound (msg : String)
  | badRequest (msg : String)
  | validation (msg : String)
  | storeFault (e : StoreError)
deriving DecidableEq, Repr, BEq

/-!
The HTTP control routes of src/api/state_routes.py, over the module-level
`store = state_store()`, an `SQLiteStateStore`.  A route returning an error
has performed no store mutation: the failing paths below raise before any
store call, or propagate a store error whose transaction rolled back.
-/

namespace StateRoutes

/-- `retry_task` route (state_routes.py:16): 404 when the task is unknown,
400 unless its state is failed, escalated or cancelled, otherwise delegate
to `SQLiteStateStore.mark_retry`. -/
def retry_task (s : Store) (task_id : String) : Except ApiError Store :=
  match SQLiteStateStore.get_task s task_id with
  | none => .error (.notFound "task not found")
  | some t =>
    if t.state == .failed || t.state == .escalated || t.state == .cancelled then
      match SQLiteStateStore.mark_retry s task_id with
      | .ok s1 => .ok s1
      | .error e => .error (.storeFault e)
    else
      .error (.badRequest "only failed/escalated/cancelled tasks can be retried")

/-- `cancel_task` route (state_routes.py:26): 404 when the task is unknown,
400 when its state is completed or cancelled, otherwise delegate to
`SQLiteStateStore.cancel_task`. -/
def cancel_task (s : Store) (task_id : String) : Except ApiError Store :=
  match SQLiteStateStore.get_task s task_id with
  | none => .error (.notFound "task not found")
  | some t =>
    if t.state == .completed || t.state == .cancelled then
      .error (.badRequest "task already finished")
    else
      match SQLiteStateStore.cancel_task s task_id with
      | .ok s1 => .ok s1
      | .error e => .error (.storeFault e)

/-- The default of the `limit` query parameter of the events route
(state_routes.py:37, `Query(200, ge=1, le=1000)`). -/
def plan_events_default_limit : Int := 200

/-- `plan_events` route (state_routes.py:36): FastAPI rejects a limit
outside [1, 1000] before the handler runs; otherwise the handler returns
`store.list_events(plan_id, task_id, limit)`. -/
def plan_events (s : Store) (plan_id : String) (task_id : Option String) (limit : Int) :
    Except ApiError (List EventRecord) :=
  if limit < 1 || limit > 1000 then
    .error (.validation "limit out of range")
  else
    .ok (SQLiteStateStore.list_events s plan_id task_id limit.toNat)

end StateRoutes

/-!
The orchestration runner, src/orchestration/runner.py `run_plan`, together
with the methods of the raw-SQL `StateStore` singleton it calls.  That
store's module is not among the sources — only runner.py, synthesizer.py and
tests/test_state_store.py reference it — so its methods are modelled from
the specification (spec §4.1, §9) and operate on the same `Store` state.
-/

namespace Runner

/-- Modelled from the spec: raw-SQL `StateStore.get_pending_tasks`, absent
from the sources (called at runner.py:33, exercised by
test_get_pending_tasks).  Spec §4.2 step 1: all tasks of the plan currently
in state pending, in creation order. -/
def get_pending_tasks (s : Store) (plan_id : String) : List TaskRecord :=
  s.tasks.filter (fun t => t.plan_id == plan_id && t.state == .pending)

/-- Modelled from the spec: raw-SQL `StateStore.update_task_status`, absent
from the sources (called at runner.py:66/82/99).  Spec §4.1
`set_task_state`: sets state and error on the task row and bumps updated_at;
its terminal-state guard makes a response-driven completion of a task
already in {completed, cancelled} a no-op, not an error (§5: the pass "must
not overwrite a `cancelled` state with `completed`"). -/
def update_task_status (s : Store) (task_id : String) (state : TaskState)
    (error : Option String) : Store :=
  match s.findTask task_id with
  | none => s
  | some t =>
    if state == .completed && (t.state == .completed || t.state == .cancelled) then
      s
    else
      s.updateTasks task_id (fun u =>
        { u with state := state, last_error := error, updated_at := s.clock })

/-- Modelled from the spec: raw-SQL `StateStore.record_event`, absent from
the sources (called at runner.py:88/105).  Spec §3 Event: the id is derived
deterministically from (plan_id, task_id, kind) so that re-emitting the same
logical event is idempotent — same id, same record, safe to ignore on
conflict. -/
def record_event (s : Store) (plan_id task_id kind payload : String) : Store :=
  let eid := stable_id ["evt", plan_id, task_id, kind]
  if s.events.any (fun e => e.event_id == eid) then
    s
  else
    { s with events := s.events ++ [⟨eid, plan_id, some task_id, kind, payload, s.clock⟩],
             clock := s.clock + 1 }

/-- Modelled from the spec: raw-SQL `StateStore.update_plan_status`, absent
from the sources (called at runner.py:129/140/144 and exercised by
test_update_plan_status).  Sets the plan's status; when the close flag is
passed it also stamps closed_at (spec §4.2 step 4, "closing the plan only
for completed/failed"). -/
def update_plan_status (s : Store) (plan_id status : String) (close : Bool) : Store :=
  s.updatePlans plan_id (fun p =>
    { p with status := status, closed_at := if close then some s.clock else p.closed_at })

/-- The close flag of the two-argument `update_plan_status` calls
(runner.py:140/144/153).  Modelled from the spec: §3's Plan invariant sets
closed_at exactly for the statuses {closed, cancelled, failed}, so "closed"
closes the plan while "synthesis_failed" leaves it open (§4.2 step 5). -/
def default_close_flag (status : String) : Bool :=
  status == "closed" || status == "cancelled" || status == "failed"

/-- Modelled from the spec: raw-SQL `StateStore.save_final_plan`, absent
from the sources (called at runner.py:139, exercised by
test_save_final_plan).  Spec §4.1 `save_final_result`: idempotent upsert
keyed by plan_id, overwriting any prior result.  The synthesized FinalPlan
is carried as its serialized content. -/
def save_final_plan (s : Store) (plan_id content : String) : Store :=
  { s with final_plans :=
      (s.final_plans.filter (fun q => !(q.1 == plan_id))) ++ [(plan_id, content)] }

/-- Modelled from the spec: raw-SQL `StateStore.increment_task_attempts`,
absent from the sources (called at runner.py:193, exercised by
test_increment_task_attempts: one call takes attempts from 0 to 1). -/
def increment_task_attempts (s : Store) (task_id : String) : Store :=
  s.updateTasks task_id (fun t => { t with attempts := t.attempts + 1 })

/-- The mutable counters of the `results` dict built by `run_plan`
(runner.py:46). -/
structure RunResults where
  plan_id : String
  status : String
  tasks_processed : Nat
  tasks_succeeded : Nat
  tasks_failed : Nat
deriving DecidableEq, Repr, BEq

/-- One iteration of the task loop (runner.py:57-112).  The worker oracle
stands for `agent_registry[agent].execute(description)`: membership of the
agent in the registry is `registry`, and `worker` returns the response's
confidence or the text of the exception the call raised.  Both the
unknown-agent ValueError and a worker exception land in the same `except`
branch, which marks the task failed with the error text and records a
`task_failed` event; the success path marks the task completed and records a
`task_completed` event. -/
def processTask (registry : String → Bool) (worker : String → String → Except String Rat)
    (acc : RunResults × Store) (t : TaskRecord) : RunResults × Store :=
  let res := acc.1
  let s := acc.2
  let s1 := update_task_status s t.task_id .in_progress none
  let outcome : Except String Rat :=
    if registry t.agent then worker t.agent t.description
    else .error ("Unknown agent type: " ++ t.agent)
  match outcome with
  | .ok conf =>
    let s2 := update_task_status s1 t.task_id .completed none
    let s3 := record_event s2 res.plan_id t.task_id "task_completed"
      ("Agent " ++ t.agent ++ " completed task successfully with confidence " ++ toString conf)
    ({ res with tasks_succeeded := res.tasks_succeeded + 1,
                tasks_processed := res.tasks_processed + 1 }, s3)
  | .error msg =>
    let s2 := update_task_status s1 t.task_id .failed (some msg)
    let s3 := record_event s2 res.plan_id t.task_id "task_failed"
      ("Agent " ++ t.agent ++ " failed: " ++ msg)
    ({ res with tasks_failed := res.tasks_failed + 1,
                tasks_processed := res.tasks_processed + 1 }, s3)

/-- The aggregate of runner.py:114-123: zero failures means "completed",
otherwise zero successes means "failed", otherwise "partially_completed". -/
def aggregate_status (res : RunResults) : String :=
  if res.tasks_failed == 0 then "completed"
  else if res.tasks_succeeded == 0 then "failed"
  else "partially_completed"

/-- The initial `results` dict of runner.py:46. -/
def initResults (plan_id : String) : RunResults :=
  ⟨plan_id, "in_progress", 0, 0, 0⟩

/-- Steps 1-4 of a pass (runner.py:32-129) on a non-empty pending set: run
the task loop over the tasks read at pass start, compute the aggregate
status, and persist it with `update_plan_status`, closing the plan exactly
when the aggregate is "completed" or "failed" (runner.py:128). -/
def runPlanPass (s : Store) (plan_id : String) (registry : String → Bool)
    (worker : String → String → Except String Rat) : RunResults × Store :=
  let tasks := get_pending_tasks s plan_id
  let folded := tasks.foldl (processTask registry worker) (initResults plan_id, s)
  let res := { folded.1 with status := aggregate_status folded.1 }
  let close := res.status == "completed" || res.status == "failed"
  (res, update_plan_status folded.2 plan_id res.status close)

/-- `run_plan` (runner.py:19-148).  With no pending tasks it returns the
no-op summary of runner.py:36-43 without touching the plan.  Otherwise it
runs the pass and, exactly when the aggregate is "completed", consults the
Synthesizer (runner.py:131-145): `synth` is the outcome of
`synthesize_plan`, an oracle because synthesizer.py wraps an external LLM
call and returns None on missing responses or unparsable output.  Some
final plan is saved via `save_final_plan` and the plan moves to "closed";
None moves the plan to "synthesis_failed".  The returned flag reports
whether the Synthesizer was invoked. -/
def run_plan (s : Store) (plan_id : String) (registry : String → Bool)
    (worker : String → String → Except String Rat) (synth : Option String) :
    RunResults × Store × Bool :=
  let tasks := get_pending_tasks s plan_id
  if tasks.isEmpty then
    (⟨plan_id, "completed", 0, 0, 0⟩, s, false)
  else
    let passed := runPlanPass s plan_id registry worker
    let res := passed.1
    let s2 := passed.2
    if res.status == "completed" then
      match synth with
      | some fp =>
        let s3 := save_final_plan s2 plan_id fp
        let s4 := update_plan_status s3 plan_id "closed" (default_close_flag "closed")
        (res, s4, true)
      | none =>
        (res, update_plan_status s2 plan_id "synthesis_failed"
          (default_close_flag "synthesis_failed"), true)
    else
      (res, s2, false)

end Runner

/-- One mutating store call: every mutating method of `SQLiteStateStore`
(src/state/store.py) together with the modelled mutating methods of the
raw-SQL store that the runner drives. -/
inductive StoreOp where
  | createPlan (original_query plan_id : String)
  | addTask (plan_id agent description task_id : String)
  | closePlan (plan_id : String)
  | cancelPlan (plan_id : String)
  | setTaskState (task_id : String) (state : TaskState) (error : Option String)
  | recordAgentResponse (task_id agent content : String) (confidence : Option Rat)
      (citations : Option (List String))
  | logEvent (plan_id kind payload : String) (task_id : Option String)
  | markRetry (task_id : String)
  | cancelTask (task_id : String)
  | updateTaskStatus (task_id : String) (state : TaskState) (error : Option String)
  | recordEvent (plan_id task_id kind payload : String)
  | updatePlanStatus (plan_id status : String) (close : Bool)
  | saveFinalPlan (plan_id content : String)
  | incrementTaskAttempts (task_id : String)

/-- Run one store call against the store.  A transaction that errors has
rolled back, so the caller's view of the store is unchanged. -/
def applyOp (op : StoreOp) (s : Store) : Store :=
  match op with
  | .createPlan q pid =>
    match SQLiteStateStore.create_plan s q pid with
    | .ok r => r.2
    | .error _ => s
  | .addTask pid agent descr tid =>
    match SQLiteStateStore.add_task s pid agent descr tid with
    | .ok r => r.2
    | .error _ => s
  | .closePlan pid =>
    match SQLiteStateStore.close_plan s pid with
    | .ok s1 => s1
    | .error _ => s
  | .cancelPlan pid =>
    match SQLiteStateStore.cancel_plan s pid with
    | .ok s1 => s1
    | .error _ => s
  | .setTaskState tid st err =>
    match SQLiteStateStore.set_task_state s tid st err with
    | .ok s1 => s1
    | .error _ => s
  | .recordAgentResponse tid agent content conf cit =>
    match SQLiteStateStore.record_agent_response s tid agent content conf cit with
    | .ok r => r.2
    | .error _ => s
  | .logEvent pid kind payload tid =>
    match SQLiteStateStore.log_event s pid kind payload tid with
    | .ok r => r.2
    | .error _ => s
  | .markRetry tid =>
    match SQLiteStateStore.mark_retry s tid with
    | .ok s1 => s1
    | .error _ => s
  | .cancelTask tid =>
    match SQLiteStateStore.cancel_task s tid with
    | .ok s1 => s1
    | .error _ => s
  | .updateTaskStatus tid st err => Runner.update_task_status s tid st err
  | .recordEvent pid tid kind payload => Runner.record_event s pid tid kind payload
  | .updatePlanStatus pid status close => Runner.update_plan_status s pid status close
  | .saveFinalPlan pid content => Runner.save_final_plan s pid content
  | .incrementTaskAttempts tid => Runner.increment_task_attempts s tid

/-- The attempts counter of the task row with the given id in a task table,
0 when the row is absent. -/
def attemptsIn (tasks : List TaskRecord) (task_id : String) : Nat :=
  match tasks.find? (fun t => t.task_id == task_id) with
  | some t => t.attempts
  | none => 0

/-- The attempts counter of a task in the store. -/
def Store.attemptsOf (s : Store) (task_id : String) : Nat :=
  attemptsIn s.tasks task_id

/-!
Concrete stores used by witnesses and counterexamples, reached from the
empty database through the store's own operations.
-/

/-- Unwrap a store-returning transaction, defaulting to the empty store. -/
def runTx (x : Except StoreError Store) : Store :=
  x.toOption.getD Store.empty

/-- Unwrap a transaction that also returns a record. -/
def runTx2 {α : Type} (x : Except StoreError (α × Store)) : Store :=
  (x.toOption.map Prod.snd).getD Store.empty

/-- A store holding one open plan "p". -/
def planStore : Store :=
  runTx2 (SQLiteStateStore.create_plan Store.empty "Expand into EU market" "p")

/-- Plan "p" with one pending task "t" for agent CFO. -/
def taskStore : Store :=
  runTx2 (SQLiteStateStore.add_task planStore "p" "CFO" "Assess finances" "t")

/-- Task "t" moved to in_progress, as happens before dispatch. -/
def inProgressStore : Store :=
  runTx (SQLiteStateStore.set_task_state taskStore "t" .in_progress none)

/-- Task "t" cancelled mid-flight via the store's cancel_task. -/
def cancelledStore : Store :=
  runTx (SQLiteStateStore.cancel_task inProgressStore "t")

/-- Task "t" marked failed via set_task_state. -/
def failedStore : Store :=
  runTx (SQLiteStateStore.set_task_state taskStore "t" .failed (some "boom"))

/-- Task "t" completed via set_task_state. -/
def completedStore : Store :=
  runTx (SQLiteStateStore.set_task_state taskStore "t" .completed none)

/-- The store after one successful mark_retry of the pending task "t". -/
def retriedStore : Store :=
  runTx (SQLiteStateStore.mark_retry taskStore "t")

/-- The store after one record_agent_response against the in-progress task
"t" (which completes it and writes the completed_on_response event). -/
def respondedStore : Store :=
  runTx2 (SQLiteStateStore.record_agent_response inProgressStore "t" "CFO" "analysis" none none)

/-- Task "t" failed, retried once (attempts 1), then failed again on the
runner's write path: the natural input of a second retry request. -/
def failedAgainStore : Store :=
  Runner.update_task_status (runTx (SQLiteStateStore.mark_retry failedStore "t")) "t" .failed
    (some "boom again")

/-- The open plan row "p" as it sits in `planStore` and its descendants. -/
def openPlan : PlanRecord := ⟨"p", "Expand into EU market", "open", 0, none⟩

/-- The pending task row "t" as it sits in `taskStore`. -/
def pendingTask : TaskRecord := ⟨"t", "p", "CFO", "Assess finances", .pending, 0, none, 2, 2⟩

/-- The cancelled task row "t" as it sits in `cancelledStore`. -/
def cancelledTask : TaskRecord := ⟨"t", "p", "CFO", "Assess finances", .cancelled, 0, none, 2, 5⟩

/-- The failed task row "t" as it sits in `failedStore`. -/
def failedTask : TaskRecord := ⟨"t", "p", "CFO", "Assess finances", .failed, 0, some "boom", 2, 4⟩

/-- The completed task row "t" as it sits in `completedStore`. -/
def completedTask : TaskRecord := ⟨"t", "p", "CFO", "Assess finances", .completed, 0, none, 2, 4⟩

/-!
Helper lemmas: primary-key lookup against updated tables, frame facts for
each operation, and the monotonicity of the attempts counter.
-/

/-- Mapping a task-id-preserving function across the task table commutes
with primary-key lookup. -/
lemma findTask_map (tasks : List TaskRecord) (tid : String) (g : TaskRecord → TaskRecord)
    (hg : ∀ t, (g t).task_id = t.task_id) :
    (tasks.map g).find? (fun t => t.task_id == tid)
      = Option.map g (tasks.find? (fun t => t.task_id == tid)) := by
  have hp : ((fun t : TaskRecord => t.task_id == tid) ∘ g) = (fun t => t.task_id == tid) := by
    funext t
    simp [Function.comp, hg]
  rw [List.find?_map, hp]

/-- Mapping a plan-id-preserving function across the plan table commutes
with primary-key lookup. -/
lemma findPlan_map (plans : List PlanRecord) (pid : String) (g : PlanRecord → PlanRecord)
    (hg : ∀ p, (g p).plan_id = p.plan_id) :
    (plans.map g).find? (fun p => p.plan_id == pid)
      = Option.map g (plans.find? (fun p => p.plan_id == pid)) := by
  have hp : ((fun p : PlanRecord => p.plan_id == pid) ∘ g) = (fun p => p.plan_id == pid) := by
    funext p
    simp [Function.comp, hg]
  rw [List.find?_map, hp]

/-- Looking up the updated key after `updateTasks` yields the transformed
row. -/
lemma Store.findTask_updateTasks_self (s : Store) (tid : String) (f : TaskRecord → TaskRecord)
    (hf : ∀ t, (f t).task_id = t.task_id) :
    (s.updateTasks tid f).findTask tid = Option.map f (s.findTask tid) := by
  unfold Store.updateTasks Store.findTask
  rw [findTask_map _ _ _ (fun t => by by_cases h : t.task_id == tid <;> simp [h, hf])]
  cases h : s.tasks.find? (fun t => t.task_id == tid) with
  | none => rfl
  | some t =>
    have ht : (t.task_id == tid) = true := by simpa using List.find?_some h
    simp [ht]
    intro hx
    exact absurd (by simpa using ht) hx

/-- Looking up the updated key after `updatePlans` yields the transformed
row. -/
lemma Store.findPlan_updatePlans_self (s : Store) (pid : String) (f : PlanRecord → PlanRecord)
    (hf : ∀ p, (f p).plan_id = p.plan_id) :
    (s.updatePlans pid f).findPlan pid = Option.map f (s.findPlan pid) := by
  unfold Store.updatePlans Store.findPlan
  rw [findPlan_map _ _ _ (fun p => by by_cases h : p.plan_id == pid <;> simp [h, hf])]
  cases h : s.plans.find? (fun p => p.plan_id == pid) with
  | none => rfl
  | some p =>
    have hp2 : (p.plan_id == pid) = true := by simpa using List.find?_some h
    simp [hp2]
    intro hx
    exact absurd (by simpa using hp2) hx

/-- A successful event insert changes only the event table and the clock. -/
lemma insertEvent_ok_fields {s s' : Store} {eid pid kind payload : String} {tid : Option String}
    (h : s.insertEvent eid pid tid kind payload = .ok s') :
    s'.plans = s.plans ∧ s'.tasks = s.tasks ∧ s'.responses = s.responses ∧
    s'.final_plans = s.final_plans ∧
    s'.events = s.events ++ [⟨eid, pid, tid, kind, payload, s.clock⟩] := by
  unfold Store.insertEvent at h
  split at h
  · exact absurd h (by simp)
  · injection h with h
    subst h
    exact ⟨rfl, rfl, rfl, rfl, rfl⟩

/-- `update_task_status` touches only the task table. -/
lemma update_task_status_frame (s : Store) (tid : String) (st : TaskState) (err : Option String) :
    (Runner.update_task_status s tid st err).plans = s.plans ∧
    (Runner.update_task_status s tid st err).events = s.events ∧
    (Runner.update_task_status s tid st err).responses = s.responses ∧
    (Runner.update_task_status s tid st err).final_plans = s.final_plans ∧
    (Runner.update_task_status s tid st err).clock = s.clock := by
  unfold Runner.update_task_status
  cases s.findTask tid with
  | none => exact ⟨rfl, rfl, rfl, rfl, rfl⟩
  | some t =>
    dsimp only
    split
    · exact ⟨rfl, rfl, rfl, rfl, rfl⟩
    · exact ⟨rfl, rfl, rfl, rfl, rfl⟩

/-- `record_event` touches only the event table and the clock. -/
lemma record_event_frame (s : Store) (pid tid kind payload : String) :
    (Runner.record_event s pid tid kind payload).plans = s.plans ∧
    (Runner.record_event s pid tid kind payload).tasks = s.tasks ∧
    (Runner.record_event s pid tid kind payload).responses = s.responses ∧
    (Runner.record_event s pid tid kind payload).final_plans = s.final_plans := by
  by_cases h : (s.events.any fun e => e.event_id == stable_id ["evt", pid, tid, kind]) = true <;>
    simp [Runner.record_event, h]

/-- One runner task step leaves the plan, response and final-plan tables
unchanged. -/
lemma processTask_frame (registry : String → Bool)
    (worker : String → String → Except String Rat)
    (acc : Runner.RunResults × Store) (t : TaskRecord) :
    (Runner.processTask registry worker acc t).2.plans = acc.2.plans ∧
    (Runner.processTask registry worker acc t).2.responses = acc.2.responses ∧
    (Runner.processTask registry worker acc t).2.final_plans = acc.2.final_plans := by
  unfold Runner.processTask
  dsimp only
  split
  · refine ⟨?_, ?_, ?_⟩ <;>
      simp [record_event_frame, update_task_status_frame,
        (record_event_frame _ _ _ _ _).1, (update_task_status_frame _ _ _ _).1]
  · refine ⟨?_, ?_, ?_⟩ <;>
      simp [record_event_frame, update_task_status_frame,
        (record_event_frame _ _ _ _ _).1, (update_task_status_frame _ _ _ _).1]

/-- A successful `mark_retry` rewrites exactly the matching task row:
attempts + 1, state pending, last_error cleared. -/
lemma mark_retry_ok {s s' : Store} {tid : String}
    (h : SQLiteStateStore.mark_retry s tid = .ok s') :
    s'.tasks = s.tasks.map (fun t => if t.task_id == tid then
      { t with attempts := t.attempts + 1, state := TaskState.pending, last_error := none,
               updated_at := s.clock } else t) := by
  unfold SQLiteStateStore.mark_retry at h
  exact (insertEvent_ok_fields h).2.1

/-- A successful `cancel_task` rewrites exactly the matching task row to
cancelled. -/
lemma cancel_task_ok {s s' : Store} {tid : String}
    (h : SQLiteStateStore.cancel_task s tid = .ok s') :
    s'.tasks = s.tasks.map (fun t => if t.task_id == tid then
      { t with state := TaskState.cancelled, updated_at := s.clock } else t) := by
  unfold SQLiteStateStore.cancel_task at h
  exact (insertEvent_ok_fields h).2.1

/-- A successful `set_task_state` rewrites exactly the matching task row. -/
lemma set_task_state_ok {s s' : Store} {tid : String} {st : TaskState} {err : Option String}
    (h : SQLiteStateStore.set_task_state s tid st err = .ok s') :
    s'.tasks = s.tasks.map (fun t => if t.task_id == tid then
      { t with state := st, last_error := err, updated_at := s.clock } else t) := by
  unfold SQLiteStateStore.set_task_state at h
  exact (insertEvent_ok_fields h).2.1

/-- A successful `close_plan` leaves the task table unchanged. -/
lemma close_plan_tasks {s s' : Store} {pid : String}
    (h : SQLiteStateStore.close_plan s pid = .ok s') : s'.tasks = s.tasks := by
  unfold SQLiteStateStore.close_plan at h
  exact (insertEvent_ok_fields h).2.1

/-- A successful `cancel_plan` marks the plan cancelled, blanket-rewrites
every task row of the plan to cancelled, and appends exactly one plan-level
`plan_cancelled` event. -/
lemma cancel_plan_ok {s s' : Store} {pid : String}
    (h : SQLiteStateStore.cancel_plan s pid = .ok s') :
    s'.plans = s.plans.map (fun p => if p.plan_id == pid then { p with status := "cancelled" } else p) ∧
    s'.tasks = s.tasks.map (fun t => if t.plan_id == pid then
      { t with state := TaskState.cancelled, updated_at := s.clock } else t) ∧
    s'.events = s.events ++
      [⟨stable_id ["evt", pid, "cancelled"], pid, none, "plan_cancelled", "", s.clock⟩] := by
  unfold SQLiteStateStore.cancel_plan at h
  have hf := insertEvent_ok_fields h
  exact ⟨hf.1, hf.2.1, hf.2.2.2.2⟩

/-- A successful `create_plan` leaves the task table unchanged. -/
lemma create_plan_tasks {s : Store} {q pid : String} {r : PlanRecord × Store}
    (h : SQLiteStateStore.create_plan s q pid = .ok r) : r.2.tasks = s.tasks := by
  unfold SQLiteStateStore.create_plan at h
  split at h
  · exact absurd h (by simp)
  · simp only [] at h
    split at h
    · exact absurd h (by simp)
    · injection h with h
      subst h
      next s2 heq => exact (insertEvent_ok_fields heq).2.1

/-- A successful `add_task` appends one fresh task row (attempts 0). -/
lemma add_task_tasks {s : Store} {pid agent descr tid : String} {r : TaskRecord × Store}
    (h : SQLiteStateStore.add_task s pid agent descr tid = .ok r) :
    r.2.tasks = s.tasks ++ [⟨tid, pid, agent, descr, .pending, 0, none, s.clock, s.clock⟩] := by
  unfold SQLiteStateStore.add_task at h
  split at h
  · exact absurd h (by simp)
  · simp only [] at h
    split at h
    · exact absurd h (by simp)
    · injection h with h
      subst h
      next s2 heq => exact (insertEvent_ok_fields heq).2.1

/-- A successful `log_event` leaves the task table unchanged. -/
lemma log_event_tasks {s : Store} {pid kind payload : String} {tid : Option String}
    {r : EventRecord × Store}
    (h : SQLiteStateStore.log_event s pid kind payload tid = .ok r) : r.2.tasks = s.tasks := by
  unfold SQLiteStateStore.log_event at h
  simp only [] at h
  split at h
  · exact absurd h (by simp)
  · injection h with h
    subst h
    next s1 heq => exact (insertEvent_ok_fields heq).2.1

/-- A successful `record_agent_response` either leaves the task table
unchanged or rewrites the matching row to completed (attempts kept). -/
lemma record_agent_response_tasks {s : Store} {tid agent content : String}
    {conf : Option Rat} {cit : Option (List String)} {r : AgentResponseRecord × Store}
    (h : SQLiteStateStore.record_agent_response s tid agent content conf cit = .ok r) :
    r.2.tasks = s.tasks ∨
    r.2.tasks = s.tasks.map (fun u => if u.task_id == tid then
      { u with state := TaskState.completed, updated_at := s.clock + 1 } else u) := by
  unfold SQLiteStateStore.record_agent_response at h
  simp only [] at h
  split at h
  · exact absurd h (by simp)
  · split at h
    · injection h with h
      subst h
      exact Or.inl rfl
    · split at h
      · injection h with h
        subst h
        exact Or.inl rfl
      · split at h
        · exact absurd h (by simp)
        · injection h with h
          subst h
          next s3 heq => exact Or.inr (insertEvent_ok_fields heq).2.1

/-- Rewriting rows with an id-preserving, attempts-nondecreasing function
never decreases any task's attempts counter. -/
lemma attemptsIn_map_le (tasks : List TaskRecord) (tid : String) (g : TaskRecord → TaskRecord)
    (hg : ∀ t, (g t).task_id = t.task_id) (ha : ∀ t, t.attempts ≤ (g t).attempts) :
    attemptsIn tasks tid ≤ attemptsIn (tasks.map g) tid := by
  unfold attemptsIn
  rw [findTask_map tasks tid g hg]
  cases tasks.find? (fun t => t.task_id == tid) with
  | none => exact Nat.le_refl 0
  | some t => simpa using ha t

/-- Appending fresh rows never decreases any task's attempts counter. -/
lemma attemptsIn_append_le (tasks extra : List TaskRecord) (tid : String) :
    attemptsIn tasks tid ≤ attemptsIn (tasks ++ extra) tid := by
  unfold attemptsIn
  rw [List.find?_append]
  cases h : tasks.find? (fun t => t.task_id == tid) with
  | none => exact Nat.zero_le _
  | some t => simp [Option.or]

/-- A conditional single-row rewrite with nondecreasing attempts is covered
by `attemptsIn_map_le`. -/
lemma attemptsIn_update_le (tasks : List TaskRecord) (tid' tid : String)
    (f : TaskRecord → TaskRecord) (hf : ∀ t, (f t).task_id = t.task_id)
    (ha : ∀ t, t.attempts ≤ (f t).attempts) :
    attemptsIn tasks tid
      ≤ attemptsIn (tasks.map (fun t => if t.task_id == tid' then f t else t)) tid := by
  refine attemptsIn_map_le tasks tid _ (fun t => ?_) (fun t => ?_)
  · by_cases h : t.task_id == tid' <;> simp [h, hf]
  · by_cases h : t.task_id == tid' <;> simp [h, ha t]

/-- No store operation ever decreases a task's attempts counter. -/
lemma applyOp_attempts_mono (op : StoreOp) (s : Store) (tid : String) :
    s.attemptsOf tid ≤ (applyOp op s).attemptsOf tid := by
  unfold Store.attemptsOf
  cases op with
  | createPlan q pid =>
    simp only [applyOp]
    cases hc : SQLiteStateStore.create_plan s q pid with
    | error e => exact Nat.le_refl _
    | ok r => rw [create_plan_tasks hc]
  | addTask pid agent descr tid' =>
    simp only [applyOp]
    cases hc : SQLiteStateStore.add_task s pid agent descr tid' with
    | error e => exact Nat.le_refl _
    | ok r =>
      rw [add_task_tasks hc]
      exact attemptsIn_append_le _ _ _
  | closePlan pid =>
    simp only [applyOp]
    cases hc : SQLiteStateStore.close_plan s pid with
    | error e => exact Nat.le_refl _
    | ok s1 => rw [close_plan_tasks hc]
  | cancelPlan pid =>
    simp only [applyOp]
    cases hc : SQLiteStateStore.cancel_plan s pid with
    | error e => exact Nat.le_refl _
    | ok s1 =>
      rw [(cancel_plan_ok hc).2.1]
      refine attemptsIn_map_le _ _ _ (fun t => ?_) (fun t => ?_)
      · by_cases h : t.plan_id == pid <;> simp [h]
      · by_cases h : t.plan_id == pid <;> simp [h]
  | setTaskState tid' st err =>
    simp only [applyOp]
    cases hc : SQLiteStateStore.set_task_state s tid' st err with
    | error e => exact Nat.le_refl _
    | ok s1 =>
      rw [set_task_state_ok hc]
      exact attemptsIn_update_le _ _ _ _ (fun t => rfl) (fun t => Nat.le_refl _)
  | recordAgentResponse tid' agent content conf cit =>
    simp only [applyOp]
    cases hc : SQLiteStateStore.record_agent_response s tid' agent content conf cit with
    | error e => exact Nat.le_refl _
    | ok r =>
      cases record_agent_response_tasks hc with
      | inl heq => rw [heq]
      | inr heq =>
        rw [heq]
        exact attemptsIn_update_le _ _ _ _ (fun t => rfl) (fun t => Nat.le_refl _)
  | logEvent pid kind payload tid' =>
    simp only [applyOp]
    cases hc : SQLiteStateStore.log_event s pid kind payload tid' with
    | error e => exact Nat.le_refl _
    | ok r => rw [log_event_tasks hc]
  | markRetry tid' =>
    simp only [applyOp]
    cases hc : SQLiteStateStore.mark_retry s tid' with
    | error e => exact Nat.le_refl _
    | ok s1 =>
      rw [mark_retry_ok hc]
      exact attemptsIn_update_le _ _ _ _ (fun t => rfl) (fun t => Nat.le_succ _)
  | cancelTask tid' =>
    simp only [applyOp]
    cases hc : SQLiteStateStore.cancel_task s tid' with
    | error e => exact Nat.le_refl _
    | ok s1 =>
      rw [cancel_task_ok hc]
      exact attemptsIn_update_le _ _ _ _ (fun t => rfl) (fun t => Nat.le_refl _)
  | updateTaskStatus tid' st err =>
    show attemptsIn s.tasks tid ≤ attemptsIn (Runner.update_task_status s tid' st err).tasks tid
    unfold Runner.update_task_status
    cases s.findTask tid' with
    | none => exact Nat.le_refl _
    | some t =>
      dsimp only
      split
      · exact Nat.le_refl _
      · exact attemptsIn_update_le _ _ _ _ (fun u => rfl) (fun u => Nat.le_refl _)
  | recordEvent pid tid' kind payload =>
    show attemptsIn s.tasks tid ≤ attemptsIn (Runner.record_event s pid tid' kind payload).tasks tid
    rw [(record_event_frame s pid tid' kind payload).2.1]
  | updatePlanStatus pid status close =>
    exact Nat.le_refl _
  | saveFinalPlan pid content =>
    exact Nat.le_refl _
  | incrementTaskAttempts tid' =>
    show attemptsIn s.tasks tid ≤ attemptsIn (Runner.increment_task_attempts s tid').tasks tid
    unfold Runner.increment_task_attempts Store.updateTasks
    exact attemptsIn_update_le _ _ _ _ (fun u => rfl) (fun u => Nat.le_succ _)

/-- The runner's task loop leaves the plan, response and final-plan tables
unchanged. -/
lemma foldl_processTask_frame (registry : String → Bool)
    (worker : String → String → Except String Rat) (tasks : List TaskRecord) :
    ∀ acc : Runner.RunResults × Store,
      (tasks.foldl (Runner.processTask registry worker) acc).2.plans = acc.2.plans ∧
      (tasks.foldl (Runner.processTask registry worker) acc).2.final_plans = acc.2.final_plans := by
  induction tasks with
  | nil => intro acc; exact ⟨rfl, rfl⟩
  | cons t ts ih =>
    intro acc
    rw [List.foldl_cons]
    refine ⟨(ih _).1.trans ?_, (ih _).2.trans ?_⟩
    · exact (processTask_frame registry worker acc t).1
    · exact (processTask_frame registry worker acc t).2.2

/-- Plan lookup after `update_plan_status` sees the transformed row. -/
lemma findPlan_update_plan_status (s0 : Store) (pid status : String) (close : Bool) :
    (Runner.update_plan_status s0 pid status close).findPlan pid
      = Option.map (fun p => { p with status := status, closed_at := if close then some s0.clock else p.closed_at }) (s0.findPlan pid) := by
  unfold Runner.update_plan_status
  exact s0.findPlan_updatePlans_self pid _ (fun p => rfl)

/-- `update_plan_status` touches only the plan table. -/
lemma update_plan_status_frame (s0 : Store) (pid status : String) (close : Bool) :
    (Runner.update_plan_status s0 pid status close).tasks = s0.tasks ∧
    (Runner.update_plan_status s0 pid status close).events = s0.events ∧
    (Runner.update_plan_status s0 pid status close).final_plans = s0.final_plans ∧
    (Runner.update_plan_status s0 pid status close).clock = s0.clock :=
  ⟨rfl, rfl, rfl, rfl⟩

/-- `save_final_plan` touches only the final-plan table, upserting the
plan's row at the end. -/
lemma save_final_plan_frame (s0 : Store) (pid content : String) :
    (Runner.save_final_plan s0 pid content).plans = s0.plans ∧
    (Runner.save_final_plan s0 pid content).tasks = s0.tasks ∧
    (Runner.save_final_plan s0 pid content).final_plans
      = (s0.final_plans.filter (fun q => !(q.1 == pid))) ++ [(pid, content)] :=
  ⟨rfl, rfl, rfl⟩

/-- Looking up a plan's final result after the upsert finds exactly the new
row. -/
lemma find?_upsert (l : List (String × String)) (pid content : String) :
    ((l.filter (fun q => !(q.1 == pid))) ++ [(pid, content)]).find? (fun q => q.1 == pid)
      = some (pid, content) := by
  rw [List.find?_append]
  have h1 : (l.filter (fun q => !(q.1 == pid))).find? (fun q => q.1 == pid) = none := by
    rw [List.find?_eq_none]
    intro x hx
    have := (List.mem_filter.mp hx).2
    simp at this
    simp [this]
  rw [h1]
  simp [List.find?]

/-- The status write of the pass (runner.py:114-129) over any fold outcome
`F` whose store kept the plan table: the plan row ends carrying the
aggregate status, closed (closed_at stamped) exactly when the aggregate is
"completed" or "failed", its closed_at untouched otherwise. -/
lemma pass_status_spec (s0 : Store) (pid : String) (p : PlanRecord)
    (F : Runner.RunResults × Store) (hplans : F.2.plans = s0.plans)
    (hp : s0.findPlan pid = some p) :
    ∃ p', (Runner.update_plan_status F.2 pid (Runner.aggregate_status F.1)
        ((Runner.aggregate_status F.1 == "completed")
          || (Runner.aggregate_status F.1 == "failed"))).findPlan pid = some p' ∧
      p'.status = Runner.aggregate_status F.1 ∧
      (F.1.tasks_failed = 0 → p'.status = "completed" ∧ p'.closed_at.isSome = true) ∧
      (F.1.tasks_failed ≠ 0 → F.1.tasks_succeeded = 0 →
        p'.status = "failed" ∧ p'.closed_at.isSome = true) ∧
      (F.1.tasks_failed ≠ 0 → F.1.tasks_succeeded ≠ 0 →
        p'.status = "partially_completed" ∧ p'.closed_at = p.closed_at) := by
  have hfp2 : F.2.findPlan pid = some p := by
    unfold Store.findPlan at hp ⊢
    rw [hplans]
    exact hp
  refine ⟨{ p with status := Runner.aggregate_status F.1, closed_at := if ((Runner.aggregate_status F.1 == "completed") || (Runner.aggregate_status F.1 == "failed")) then some F.2.clock else p.closed_at }, ?_, rfl, ?_, ?_, ?_⟩
  · rw [findPlan_update_plan_status, hfp2]
    rfl
  · intro h0
    have hA : Runner.aggregate_status F.1 = "completed" := by
      simp [Runner.aggregate_status, h0]
    exact ⟨hA, by simp [hA]⟩
  · intro h1 h2
    have hA : Runner.aggregate_status F.1 = "failed" := by
      simp [Runner.aggregate_status, h1, h2]
    exact ⟨hA, by simp [hA]⟩
  · intro h1 h2
    have hA : Runner.aggregate_status F.1 = "partially_completed" := by
      simp [Runner.aggregate_status, h1, h2]
    refine ⟨hA, ?_⟩
    simp [hA]

/-- `run_plan` on a plan with pending tasks: the early-return branch is
skipped and the pass plus the conditional synthesis stage run. -/
lemma run_plan_nonempty (s : Store) (pid : String) (registry : String → Bool)
    (worker : String → String → Except String Rat) (synth : Option String)
    (hne : (Runner.get_pending_tasks s pid).isEmpty = false) :
    Runner.run_plan s pid registry worker synth =
      (if (Runner.runPlanPass s pid registry worker).1.status == "completed" then
        match synth with
        | some fp =>
          ((Runner.runPlanPass s pid registry worker).1,
            Runner.update_plan_status
              (Runner.save_final_plan (Runner.runPlanPass s pid registry worker).2 pid fp)
              pid "closed" (Runner.default_close_flag "closed"), true)
        | none =>
          ((Runner.runPlanPass s pid registry worker).1,
            Runner.update_plan_status (Runner.runPlanPass s pid registry worker).2 pid
              "synthesis_failed" (Runner.default_close_flag "synthesis_failed"), true)
      else ((Runner.runPlanPass s pid registry worker).1,
        (Runner.runPlanPass s pid registry worker).2, false)) := by
  unfold Runner.run_plan
  simp only [hne, Bool.false_eq_true, if_false]

/-- After a successful synthesis the final result is upserted and the plan
row moves to status "closed" with closed_at stamped. -/
lemma closed_after_synthesis (s2 : Store) (pid fp : String) (p2 : PlanRecord)
    (hp2 : s2.findPlan pid = some p2) :
    ((Runner.update_plan_status (Runner.save_final_plan s2 pid fp) pid "closed"
        (Runner.default_close_flag "closed")).final_plans.find? (fun q => q.1 == pid))
      = some (pid, fp) ∧
    ∃ p', (Runner.update_plan_status (Runner.save_final_plan s2 pid fp) pid "closed"
        (Runner.default_close_flag "closed")).findPlan pid = some p' ∧
      p'.status = "closed" ∧ p'.closed_at.isSome = true := by
  constructor
  · exact find?_upsert s2.final_plans pid fp
  · rw [findPlan_update_plan_status]
    have hkeep : (Runner.save_final_plan s2 pid fp).findPlan pid = s2.findPlan pid := rfl
    rw [hkeep, hp2]
    exact ⟨_, rfl, rfl, rfl⟩

/-- After a failed synthesis the plan row moves to status
"synthesis_failed". -/
lemma synthesis_failed_status (s2 : Store) (pid : String) (p2 : PlanRecord)
    (hp2 : s2.findPlan pid = some p2) :
    ∃ p', (Runner.update_plan_status s2 pid "synthesis_failed"
        (Runner.default_close_flag "synthesis_failed")).findPlan pid = some p' ∧
      p'.status = "synthesis_failed" := by
  rw [findPlan_update_plan_status, hp2]
  exact ⟨_, rfl, rfl⟩

/-- The truncation of `list_events` bounds its length by the limit. -/
lemma list_events_length_le (s : Store) (pid : String) (tid : Option String) (limit : Nat) :
    (SQLiteStateStore.list_events s pid tid limit).length ≤ limit := by
  unfold SQLiteStateStore.list_events
  simp only []
  rw [List.length_take]
  exact inf_le_left

/-- The merge sort of `list_events` orders the result by created_at, most
recent first. -/
lemma list_events_sorted (s : Store) (pid : String) (tid : Option String) (limit : Nat) :
    List.Pairwise (fun a b : EventRecord => b.created_at ≤ a.created_at)
      (SQLiteStateStore.list_events s pid tid limit) := by
  unfold SQLiteStateStore.list_events
  simp only []
  apply List.Pairwise.sublist (List.take_sublist _ _)
  have hp := @List.sorted_mergeSort EventRecord
      (fun a b => decide (b.created_at ≤ a.created_at))
      (fun a b c hab hbc => by
        have h1 := of_decide_eq_true hab
        have h2 := of_decide_eq_true hbc
        exact decide_eq_true (Nat.le_trans h2 h1))
      (fun a b => by rcases Nat.le_total b.created_at a.created_at with h | h <;> simp [h])
  exact (hp _).imp (fun hab => of_decide_eq_true hab)

/-- Every event returned by `list_events` is an event of the store and
belongs to the requested plan. -/
lemma list_events_mem {s : Store} {pid : String} {tid : Option String} {limit : Nat}
    {e : EventRecord} (h : e ∈ SQLiteStateStore.list_events s pid tid limit) :
    e ∈ s.events ∧ e.plan_id = pid := by
  unfold SQLiteStateStore.list_events at h
  simp only [] at h
  have h1 := List.mem_of_mem_take h
  rw [(List.mergeSort_perm _ _).mem_iff] at h1
  have h2 : e ∈ s.events.filter (fun e => e.plan_id == pid) := by
    cases tid with
    | none => exact h1
    | some tv =>
      by_cases htv : (tv == "") = true
      · simpa [htv] using h1
      · simp only [htv, Bool.false_eq_true, if_false] at h1
        exact (List.mem_filter.mp h1).1
  obtain ⟨he, hpid⟩ := List.mem_filter.mp h2
  exact ⟨he, by simpa using hpid⟩

/-- The events route accepts exactly the limits in [1, 1000]. -/
lemma plan_events_ok_iff (s : Store) (pid : String) (tid : Option String) (l : Int) :
    (StateRoutes.plan_events s pid tid l).isOk = true ↔ (1 ≤ l ∧ l ≤ 1000) := by
  unfold StateRoutes.plan_events
  split
  · next h =>
    simp only [Bool.or_eq_true, decide_eq_true_eq] at h
    simp only [Except.isOk]
    constructor
    · intro hx
      simp [Except.isOk, Except.toBool] at hx
    · intro hx
      omega
  · next h =>
    simp only [Bool.or_eq_true, decide_eq_true_eq] at h
    push_neg at h
    simp only [Except.isOk]
    constructor
    · intro _
      omega
    · intro _
      rfl

/-!
The claims.
-/

/-- C1: for a task whose current state is cancelled, no response-driven
completion changes its state: whenever `record_agent_response` returns, the
task it leaves behind is still cancelled (the store-layer guard at
store.py:243-248), and the Runner's success write after an in-flight worker
call returns — `update_task_status(task_id, completed)` at runner.py:82 — is
a no-op on it, never setting it to completed. -/
theorem cancelled_task_never_completed (s : Store) (tid agent content : String)
    (conf : Option Rat) (cit : Option (List String)) (t : TaskRecord)
    (ht : s.findTask tid = some t) (hc : t.state = .cancelled) :
    (∀ r s', SQLiteStateStore.record_agent_response s tid agent content conf cit = .ok (r, s') →
      ∃ t', s'.findTask tid = some t' ∧ t'.state = .cancelled) ∧
    Runner.update_task_status s tid .completed none = s := by
  constructor
  · intro r s' h
    unfold SQLiteStateStore.record_agent_response at h
    simp only [] at h
    split at h
    · exact absurd h (by simp)
    · rw [ht] at h
      have hcond : (t.state == TaskState.failed || t.state == TaskState.cancelled) = true := by
        rw [hc]
        rfl
      simp only [hcond, if_true] at h
      injection h with h
      obtain ⟨-, hs⟩ := Prod.mk.injEq .. ▸ h
      refine ⟨t, ?_, hc⟩
      rw [← hs]
      exact ht
  · unfold Runner.update_task_status
    rw [ht]
    have hcond : (TaskState.completed == TaskState.completed
        && (t.state == TaskState.completed || t.state == TaskState.cancelled)) = true := by
      rw [hc]
      rfl
    simp only [hcond, if_true]

/-- C1 witness: the store holding the cancelled task "t", exercised at both
completion paths. -/
theorem cancelled_task_never_completed_witness :
    (∀ r s', SQLiteStateStore.record_agent_response cancelledStore "t" "CFO" "late result" none none
        = .ok (r, s') → ∃ t', s'.findTask "t" = some t' ∧ t'.state = .cancelled) ∧
    Runner.update_task_status cancelledStore "t" .completed none = cancelledStore :=
  cancelled_task_never_completed cancelledStore "t" "CFO" "late result" none none
    cancelledTask (by decide) (by decide)

/-- C5 counterexample: the store-level `mark_retry` has no state check.  On
the pending task "t" of `taskStore` the claim requires an InvalidTransition
failure leaving the task unchanged, but the call succeeds and bumps the
task to attempts 1. -/
theorem store_mark_retry_unguarded :
    (SQLiteStateStore.mark_retry taskStore "t").isOk = true ∧
    ((SQLiteStateStore.mark_retry taskStore "t").toOption.bind
        (fun s' => (s'.findTask "t").map (fun t => (t.attempts, t.state))))
      = some (1, TaskState.pending) := by
  constructor
  · decide
  · decide

/-- C5 amended: the InvalidTransition rejection of retry for a task in
state pending, in_progress or completed is enforced at the API boundary
(state_routes.py:21-22), which rejects with HTTP 400 before any store call,
leaving the task unchanged; the store-level `mark_retry` itself performs no
state check. -/
theorem api_retry_rejected_for_nonretryable (s : Store) (tid : String) (t : TaskRecord)
    (ht : SQLiteStateStore.get_task s tid = some t)
    (hst : t.state = .pending ∨ t.state = .in_progress ∨ t.state = .completed) :
    StateRoutes.retry_task s tid
      = .error (.badRequest "only failed/escalated/cancelled tasks can be retried") := by
  unfold StateRoutes.retry_task
  rw [ht]
  have hcond : (t.state == TaskState.failed || t.state == TaskState.escalated
      || t.state == TaskState.cancelled) = false := by
    rcases hst with h | h | h <;> rw [h] <;> rfl
  simp only [hcond, Bool.false_eq_true, if_false]

/-- C5 witness: the API rejects a retry of the pending task "t". -/
theorem api_retry_rejected_for_nonretryable_witness :
    StateRoutes.retry_task taskStore "t"
      = .error (.badRequest "only failed/escalated/cancelled tasks can be retried") :=
  api_retry_rejected_for_nonretryable taskStore "t" pendingTask (by decide) (Or.inl (by decide))

/-- C6 counterexample: the store-level `cancel_task` has no state check.
On the completed task "t" of `completedStore` the claim requires an
InvalidTransition failure, but the call succeeds and rewrites the task to
cancelled. -/
theorem store_cancel_task_unguarded :
    (SQLiteStateStore.cancel_task completedStore "t").isOk = true ∧
    ((SQLiteStateStore.cancel_task completedStore "t").toOption.bind
        (fun s' => (s'.findTask "t").map (fun t => t.state))) = some TaskState.cancelled := by
  constructor
  · decide
  · decide

/-- C6 amended: the InvalidTransition rejection of cancel for a completed
or cancelled task is enforced at the API boundary (state_routes.py:31-32,
HTTP 400, no store call); for a task in state pending, in_progress, failed
or escalated the API cancel succeeds and leaves the task cancelled,
provided the task's `task_cancelled` event id is not already taken (a
re-cancel after a retry hits the duplicate event id and fails); the
store-level `cancel_task` itself performs no state check. -/
theorem api_cancel_guard_and_outcome (s : Store) (tid : String) (t : TaskRecord)
    (ht : SQLiteStateStore.get_task s tid = some t) :
    ((t.state = .completed ∨ t.state = .cancelled) →
      StateRoutes.cancel_task s tid = .error (.badRequest "task already finished")) ∧
    ((t.state = .pending ∨ t.state = .in_progress ∨ t.state = .failed ∨ t.state = .escalated) →
      (s.events.any (fun e => e.event_id == stable_id ["evt", t.plan_id, tid, "cancel"])) = false →
      ∃ s', StateRoutes.cancel_task s tid = .ok s' ∧
        ∃ t', s'.findTask tid = some t' ∧ t'.state = .cancelled) := by
  have ht2 : s.findTask tid = some t := ht
  have htid : (t.task_id == tid) = true := by simpa using List.find?_some ht2
  constructor
  · intro hterm
    unfold StateRoutes.cancel_task
    rw [ht]
    have hcond : (t.state == TaskState.completed || t.state == TaskState.cancelled) = true := by
      rcases hterm with h | h <;> rw [h] <;> rfl
    simp only [hcond, if_true]
  · intro hact hev
    have hcond : (t.state == TaskState.completed || t.state == TaskState.cancelled) = false := by
      rcases hact with h | h | h | h <;> rw [h] <;> rfl
    have hok : SQLiteStateStore.cancel_task s tid = .ok
        { (s.updateTasks tid (fun u => { u with state := TaskState.cancelled, updated_at := s.clock })) with
          events := s.events ++ [⟨stable_id ["evt", t.plan_id, tid, "cancel"], t.plan_id,
            some tid, "task_cancelled", "", s.clock⟩],
          clock := s.clock + 1 } := by
      unfold SQLiteStateStore.cancel_task Store.insertEvent
      have hc2 : ((s.updateTasks tid fun u =>
          { u with state := TaskState.cancelled, updated_at := s.clock }).events.any
          fun e => e.event_id == stable_id ["evt", t.plan_id, tid, "cancel"]) = false := hev
      simp only [ht2, hc2, Bool.false_eq_true, if_false]
      rfl
    match hcc : SQLiteStateStore.cancel_task s tid with
    | .error e =>
      rw [hok] at hcc
      cases hcc
    | .ok S =>
      refine ⟨S, ?_, ?_⟩
      · unfold StateRoutes.cancel_task
        rw [ht]
        simp only [hcond, Bool.false_eq_true, if_false, hcc]
      · rw [hok] at hcc
        injection hcc with hS
        subst hS
        have hfind := s.findTask_updateTasks_self tid
          (fun u => { u with state := TaskState.cancelled, updated_at := s.clock }) (fun u => rfl)
        refine ⟨{ t with state := TaskState.cancelled, updated_at := s.clock }, ?_, rfl⟩
        show (s.updateTasks tid (fun u =>
          { u with state := TaskState.cancelled, updated_at := s.clock })).findTask tid = _
        rw [hfind, ht2]
        rfl

/-- C6 witness: the API rejects cancelling the completed task "t" in
`completedStore`, and cancels the pending task "t" in `taskStore`. -/
theorem api_cancel_guard_and_outcome_witness :
    (StateRoutes.cancel_task completedStore "t" = .error (.badRequest "task already finished")) ∧
    (∃ s', StateRoutes.cancel_task taskStore "t" = .ok s' ∧
      ∃ t', s'.findTask "t" = some t' ∧ t'.state = .cancelled) :=
  ⟨(api_cancel_guard_and_outcome completedStore "t" completedTask (by decide)).1 (Or.inl (by decide)),
   (api_cancel_guard_and_outcome taskStore "t" pendingTask (by decide)).2 (Or.inl (by decide)) (by decide)⟩

/-- C4 counterexample: `cancel_plan` on `completedStore` (whose only task
"t" is already in the terminal state completed) rewrites that task to
cancelled instead of leaving it unchanged, and appends exactly one event —
a plan-level one — rather than one event per cancelled task. -/
theorem cancel_plan_overwrites_terminal :
    ((SQLiteStateStore.cancel_plan completedStore "p").toOption.bind
        (fun s' => (s'.findTask "t").map (fun t => t.state))) = some TaskState.cancelled ∧
    ((SQLiteStateStore.cancel_plan completedStore "p").toOption.map
        (fun s' => s'.events.length)) = some (completedStore.events.length + 1) ∧
    ((completedStore.findTask "t").map (fun t => t.state)) = some TaskState.completed := by
  refine ⟨by decide, by decide, by decide⟩

/-- C4 amended: `cancel_plan` sets the plan's status to cancelled and, in
the same transaction, sets every task of that plan — including tasks
already in a terminal state — to cancelled, recording a single plan-level
`plan_cancelled` event rather than one event per task. -/
theorem cancel_plan_cascades_to_all_tasks (s s' : Store) (pid : String)
    (h : SQLiteStateStore.cancel_plan s pid = .ok s') :
    (∀ tid t, s.findTask tid = some t → t.plan_id = pid →
      ∃ t', s'.findTask tid = some t' ∧ t'.state = .cancelled) ∧
    (∀ tid t, s.findTask tid = some t → t.plan_id ≠ pid → s'.findTask tid = some t) ∧
    s'.events = s.events ++
      [⟨stable_id ["evt", pid, "cancelled"], pid, none, "plan_cancelled", "", s.clock⟩] ∧
    (∀ p, s.findPlan pid = some p → ∃ p', s'.findPlan pid = some p' ∧ p'.status = "cancelled") := by
  obtain ⟨hplans, htasks, hevents⟩ := cancel_plan_ok h
  have hmapt : ∀ tid, s'.findTask tid
      = Option.map (fun t => if t.plan_id == pid then
          { t with state := TaskState.cancelled, updated_at := s.clock } else t) (s.findTask tid) := by
    intro tid
    unfold Store.findTask
    rw [htasks]
    exact findTask_map _ _ _ (fun t => by by_cases hb : t.plan_id == pid <;> simp [hb])
  refine ⟨?_, ?_, hevents, ?_⟩
  · intro tid t hft hp
    rw [hmapt tid, hft]
    have hb : (t.plan_id == pid) = true := by simpa using hp
    refine ⟨{ t with state := TaskState.cancelled, updated_at := s.clock }, ?_, rfl⟩
    simp [hb]
    intro hx
    exact absurd hp hx
  · intro tid t hft hp
    rw [hmapt tid, hft]
    have hb : (t.plan_id == pid) = false := by simpa using hp
    simp [hb]
    intro hx
    exact absurd hx hp
  · intro p hfp
    have hmapp : s'.findPlan pid
        = Option.map (fun p => if p.plan_id == pid then { p with status := "cancelled" } else p)
          (s.findPlan pid) := by
      unfold Store.findPlan
      rw [hplans]
      exact findPlan_map _ _ _ (fun p => by by_cases hb : p.plan_id == pid <;> simp [hb])
    have hb : (p.plan_id == pid) = true := by simpa using List.find?_some hfp
    rw [hmapp, hfp]
    refine ⟨{ p with status := "cancelled" }, ?_, rfl⟩
    simp [hb]
    intro hx
    exact absurd (by simpa using hb) hx

/-- C4 witness: cancelling plan "p" over `completedStore`. -/
theorem cancel_plan_cascades_to_all_tasks_witness :
    ∃ t', (runTx (SQLiteStateStore.cancel_plan completedStore "p")).findTask "t" = some t' ∧
      t'.state = .cancelled :=
  (cancel_plan_cascades_to_all_tasks completedStore
      (runTx (SQLiteStateStore.cancel_plan completedStore "p")) "p" (by rfl)).1
    "t" completedTask (by decide) (by decide)

/-- C10 counterexample: the claim's "inserts the agent-response row for
every task state" fails on a repeated response for an already-completed
task: in `respondedStore` task "t" is completed and the
completed_on_response event exists, so a second `record_agent_response`
hits the duplicate event id, errors, and persists nothing. -/
theorem record_agent_response_duplicate_completion :
    SQLiteStateStore.record_agent_response respondedStore "t" "CFO" "second analysis" none none
      = .error (.integrityError (stable_id ["evt", "p", "t", "completed_on_response"])) ∧
    ((respondedStore.findTask "t").map (fun t => t.state)) = some TaskState.completed := by
  refine ⟨by rfl, by decide⟩

/-- C10 amended: `record_agent_response` persists and returns the response
row whenever it succeeds, whatever the task's state; on a task in state
failed or cancelled it always succeeds while skipping the completion
transition and its event — the task table and the event log are left
untouched — but a repeated response for an already-completed task fails on
the duplicate completion event id and rolls back entirely. -/
theorem record_agent_response_terminal_frame (s : Store) (tid agent content : String)
    (conf : Option Rat) (cit : Option (List String)) (t : TaskRecord)
    (ht : s.findTask tid = some t) (hterm : t.state = .failed ∨ t.state = .cancelled)
    (hfresh : (s.responses.any (fun r =>
        r.response_id == stable_id ["resp", tid, agent, content.take 64, toString s.clock])) = false) :
    ∃ r s', SQLiteStateStore.record_agent_response s tid agent content conf cit = .ok (r, s') ∧
      s'.tasks = s.tasks ∧ s'.events = s.events ∧ s'.responses = s.responses ++ [r] ∧
      r.task_id = tid ∧ r.agent = agent ∧ r.content = content := by
  have hcond : (t.state == TaskState.failed || t.state == TaskState.cancelled) = true := by
    rcases hterm with h | h <;> rw [h] <;> rfl
  refine ⟨⟨stable_id ["resp", tid, agent, content.take 64, toString s.clock], tid, agent, conf,
      content, cit, s.clock⟩,
    { s with responses := s.responses ++ [⟨stable_id ["resp", tid, agent, content.take 64,
        toString s.clock], tid, agent, conf, content, cit, s.clock⟩], clock := s.clock + 1 },
    ?_, rfl, rfl, rfl, rfl, rfl, rfl⟩
  unfold SQLiteStateStore.record_agent_response
  simp only [hfresh, ht, hcond, Bool.false_eq_true, if_false, if_true]

/-- C10 witness: a late response for the cancelled task "t". -/
theorem record_agent_response_terminal_frame_witness :
    ∃ r s', SQLiteStateStore.record_agent_response cancelledStore "t" "CFO" "late result" none none
        = .ok (r, s') ∧
      s'.tasks = cancelledStore.tasks ∧ s'.events = cancelledStore.events ∧
      s'.responses = cancelledStore.responses ++ [r] ∧
      r.task_id = "t" ∧ r.agent = "CFO" ∧ r.content = "late result" :=
  record_agent_response_terminal_frame cancelledStore "t" "CFO" "late result" none none
    cancelledTask (by decide) (Or.inr (by decide)) (by decide)

/-- C7: every successful `mark_retry` rewrites the task row in its one
transaction to attempts + 1, state pending and last_error null
(store.py:281-283), and no store operation ever decreases any task's
attempts counter. -/
theorem mark_retry_effects_and_attempts_monotone :
    (∀ (s s' : Store) (tid : String) (t : TaskRecord),
      s.findTask tid = some t → SQLiteStateStore.mark_retry s tid = .ok s' →
      ∃ t', s'.findTask tid = some t' ∧ t'.attempts = t.attempts + 1 ∧
        t'.state = .pending ∧ t'.last_error = none) ∧
    (∀ (op : StoreOp) (s : Store) (tid : String),
      s.attemptsOf tid ≤ (applyOp op s).attemptsOf tid) := by
  constructor
  · intro s s' tid t ht h
    have htasks := mark_retry_ok h
    have ht' : (t.task_id == tid) = true := by simpa using List.find?_some ht
    let t2 : TaskRecord := { t with attempts := t.attempts + 1, state := TaskState.pending, last_error := none, updated_at := s.clock }
    refine ⟨t2, ?_, rfl, rfl, rfl⟩
    show s'.tasks.find? (fun u => u.task_id == tid) = some _
    rw [htasks, findTask_map _ _ _ (fun u => by by_cases hu : u.task_id == tid <;> simp [hu])]
    have ht2 : s.tasks.find? (fun u => u.task_id == tid) = some t := ht
    rw [ht2]
    simp [ht']
    intro hx
    exact absurd (by simpa using ht') hx
  · exact fun op s tid => applyOp_attempts_mono op s tid

/-- C9: `list_events` returns the plan's own events ordered by created_at
most recent first and at most `limit` of them; the store-level default
limit is 200 (store.py:270) as is the route's, and the one API boundary
exposing it (state_routes.py:37, `Query(200, ge=1, le=1000)`) accepts
exactly the limits in [1, 1000]. -/
theorem list_events_ordering_limit_bounds (s : Store) (pid : String) (tid : Option String)
    (limit : Nat) :
    (SQLiteStateStore.list_events s pid tid limit).length ≤ limit ∧
    List.Pairwise (fun a b : EventRecord => b.created_at ≤ a.created_at)
      (SQLiteStateStore.list_events s pid tid limit) ∧
    (∀ e ∈ SQLiteStateStore.list_events s pid tid limit, e ∈ s.events ∧ e.plan_id = pid) ∧
    SQLiteStateStore.list_events_default_limit = 200 ∧
    StateRoutes.plan_events_default_limit = 200 ∧
    (∀ l : Int, (StateRoutes.plan_events s pid tid l).isOk = true ↔ (1 ≤ l ∧ l ≤ 1000)) :=
  ⟨list_events_length_le s pid tid limit, list_events_sorted s pid tid limit,
   fun _ he => list_events_mem he, rfl, rfl, fun l => plan_events_ok_iff s pid tid l⟩

/-- C9 witness: the events of plan "p" in `respondedStore`, and the default
limit accepted at the boundary. -/
theorem list_events_ordering_limit_bounds_witness :
    (SQLiteStateStore.list_events respondedStore "p" none 2).length ≤ 2 ∧
    (StateRoutes.plan_events respondedStore "p" none 200).isOk = true :=
  ⟨(list_events_ordering_limit_bounds respondedStore "p" none 2).1,
   ((list_events_ordering_limit_bounds respondedStore "p" none 2).2.2.2.2.2 200).mpr (by decide)⟩

/-- C2: after the pass's task loop, the runner persists the aggregate
(runner.py:114-129): zero failures gives plan status "completed", otherwise
zero successes gives "failed", otherwise "partially_completed"; the close
flag — stamping closed_at — is passed exactly for "completed" and "failed",
while "partially_completed" leaves the plan's closed_at untouched (open).
This is the state after step 4, before the synthesis stage. -/
theorem runner_aggregate_plan_status (s : Store) (pid : String)
    (registry : String → Bool) (worker : String → String → Except String Rat)
    (p : PlanRecord) (hp : s.findPlan pid = some p) (hopen : p.closed_at = none)
    (hne : Runner.get_pending_tasks s pid ≠ []) :
    ∃ p', (Runner.runPlanPass s pid registry worker).2.findPlan pid = some p' ∧
      p'.status = (Runner.runPlanPass s pid registry worker).1.status ∧
      ((Runner.runPlanPass s pid registry worker).1.tasks_failed = 0 →
        p'.status = "completed" ∧ p'.closed_at.isSome = true) ∧
      ((Runner.runPlanPass s pid registry worker).1.tasks_failed ≠ 0 →
        (Runner.runPlanPass s pid registry worker).1.tasks_succeeded = 0 →
        p'.status = "failed" ∧ p'.closed_at.isSome = true) ∧
      ((Runner.runPlanPass s pid registry worker).1.tasks_failed ≠ 0 →
        (Runner.runPlanPass s pid registry worker).1.tasks_succeeded ≠ 0 →
        p'.status = "partially_completed" ∧ p'.closed_at = none) := by
  obtain ⟨p', h1, h2, h3, h4, h5⟩ := pass_status_spec s pid p
    ((Runner.get_pending_tasks s pid).foldl (Runner.processTask registry worker)
      (Runner.initResults pid, s))
    (foldl_processTask_frame registry worker (Runner.get_pending_tasks s pid)
      (Runner.initResults pid, s)).1 hp
  exact ⟨p', h1, h2, h3, h4, fun ha hb => ⟨(h5 ha hb).1, (h5 ha hb).2.trans hopen⟩⟩

/-- C2 witness: a one-task pass over `taskStore` where the worker succeeds:
the plan ends "completed" and closed. -/
theorem runner_aggregate_plan_status_witness :
    ∃ p', (Runner.runPlanPass taskStore "p" (fun _ => true)
        (fun _ _ => Except.ok (1 : Rat))).2.findPlan "p" = some p' ∧
      p'.status = (Runner.runPlanPass taskStore "p" (fun _ => true)
        (fun _ _ => Except.ok (1 : Rat))).1.status ∧
      ((Runner.runPlanPass taskStore "p" (fun _ => true)
          (fun _ _ => Except.ok (1 : Rat))).1.tasks_failed = 0 →
        p'.status = "completed" ∧ p'.closed_at.isSome = true) ∧
      ((Runner.runPlanPass taskStore "p" (fun _ => true)
          (fun _ _ => Except.ok (1 : Rat))).1.tasks_failed ≠ 0 →
        (Runner.runPlanPass taskStore "p" (fun _ => true)
          (fun _ _ => Except.ok (1 : Rat))).1.tasks_succeeded = 0 →
        p'.status = "failed" ∧ p'.closed_at.isSome = true) ∧
      ((Runner.runPlanPass taskStore "p" (fun _ => true)
          (fun _ _ => Except.ok (1 : Rat))).1.tasks_failed ≠ 0 →
        (Runner.runPlanPass taskStore "p" (fun _ => true)
          (fun _ _ => Except.ok (1 : Rat))).1.tasks_succeeded ≠ 0 →
        p'.status = "partially_completed" ∧ p'.closed_at = none) :=
  runner_aggregate_plan_status taskStore "p" (fun _ => true) (fun _ _ => Except.ok (1 : Rat))
    openPlan (by decide) rfl (by decide)

/-- C3: on a pass with pending tasks, `run_plan` consults the Synthesizer
exactly when the pass aggregate is "completed" (runner.py:132); a
successful synthesis saves the final result and moves the plan to the
closed terminal status "closed" (runner.py:138-140), while a failed
synthesis moves the plan to "synthesis_failed" (runner.py:144), keeping
the completed tasks' work. -/
theorem runner_synthesis_iff_completed (s : Store) (pid : String)
    (registry : String → Bool) (worker : String → String → Except String Rat)
    (synth : Option String) (p : PlanRecord)
    (hp : s.findPlan pid = some p) (hne : Runner.get_pending_tasks s pid ≠ []) :
    ((Runner.run_plan s pid registry worker synth).2.2 = true ↔
      (Runner.run_plan s pid registry worker synth).1.status = "completed") ∧
    (∀ fp, synth = some fp →
      (Runner.run_plan s pid registry worker synth).1.status = "completed" →
      ((Runner.run_plan s pid registry worker synth).2.1.final_plans.find?
          (fun q => q.1 == pid)) = some (pid, fp) ∧
      ∃ p', (Runner.run_plan s pid registry worker synth).2.1.findPlan pid = some p' ∧
        p'.status = "closed" ∧ p'.closed_at.isSome = true) ∧
    (synth = none →
      (Runner.run_plan s pid registry worker synth).1.status = "completed" →
      ∃ p', (Runner.run_plan s pid registry worker synth).2.1.findPlan pid = some p' ∧
        p'.status = "synthesis_failed") := by
  have hne2 : (Runner.get_pending_tasks s pid).isEmpty = false := by
    cases hl : Runner.get_pending_tasks s pid with
    | nil => exact absurd hl hne
    | cons a l => rfl
  obtain ⟨p2, hp2, -, -, -, -⟩ := pass_status_spec s pid p
    ((Runner.get_pending_tasks s pid).foldl (Runner.processTask registry worker)
      (Runner.initResults pid, s))
    (foldl_processTask_frame registry worker (Runner.get_pending_tasks s pid)
      (Runner.initResults pid, s)).1 hp
  have hp2' : (Runner.runPlanPass s pid registry worker).2.findPlan pid = some p2 := hp2
  rw [run_plan_nonempty s pid registry worker synth hne2]
  by_cases hst : (Runner.runPlanPass s pid registry worker).1.status = "completed"
  · have hstb : ((Runner.runPlanPass s pid registry worker).1.status == "completed") = true := by
      simp [hst]
    cases synth with
    | some fp =>
      simp only [hstb, if_true]
      refine ⟨by simp [hst], ?_, ?_⟩
      · intro fp' hfp' _
        injection hfp' with hfp'
        subst hfp'
        exact closed_after_synthesis _ pid fp p2 hp2'
      · intro hx
        cases hx
    | none =>
      simp only [hstb, if_true]
      refine ⟨by simp [hst], ?_, ?_⟩
      · intro fp' hfp' _
        cases hfp'
      · intro _ _
        exact synthesis_failed_status _ pid p2 hp2'
  · have hstb : ((Runner.runPlanPass s pid registry worker).1.status == "completed") = false := by
      simp [hst]
    simp only [hstb, Bool.false_eq_true, if_false]
    refine ⟨by simp [hst], ?_, ?_⟩
    · intro fp' _ hstatus
      exact absurd hstatus hst
    · intro _ hstatus
      exact absurd hstatus hst

/-- C3 witness: the same one-task pass with a successful synthesis oracle:
the synthesizer is invoked, the final plan is saved, the plan closes. -/
theorem runner_synthesis_iff_completed_witness :
    ((Runner.run_plan taskStore "p" (fun _ => true) (fun _ _ => Except.ok (1 : Rat))
        (some "final plan")).2.2 = true ↔
      (Runner.run_plan taskStore "p" (fun _ => true) (fun _ _ => Except.ok (1 : Rat))
        (some "final plan")).1.status = "completed") ∧
    (∀ fp, (some "final plan" : Option String) = some fp →
      (Runner.run_plan taskStore "p" (fun _ => true) (fun _ _ => Except.ok (1 : Rat))
        (some "final plan")).1.status = "completed" →
      ((Runner.run_plan taskStore "p" (fun _ => true) (fun _ _ => Except.ok (1 : Rat))
          (some "final plan")).2.1.final_plans.find? (fun q => q.1 == "p")) = some ("p", fp) ∧
      ∃ p', (Runner.run_plan taskStore "p" (fun _ => true) (fun _ _ => Except.ok (1 : Rat))
          (some "final plan")).2.1.findPlan "p" = some p' ∧
        p'.status = "closed" ∧ p'.closed_at.isSome = true) ∧
    ((some "final plan" : Option String) = none →
      (Runner.run_plan taskStore "p" (fun _ => true) (fun _ _ => Except.ok (1 : Rat))
        (some "final plan")).1.status = "completed" →
      ∃ p', (Runner.run_plan taskStore "p" (fun _ => true) (fun _ _ => Except.ok (1 : Rat))
          (some "final plan")).2.1.findPlan "p" = some p' ∧
        p'.status = "synthesis_failed") :=
  runner_synthesis_iff_completed taskStore "p" (fun _ => true) (fun _ _ => Except.ok (1 : Rat))
    (some "final plan") openPlan (by decide) (by decide)

/-- C8 (code bug): `_stable_id` is deterministic but the retry event id
(store.py:287) carries no attempt context, so the second retry of the same
task derives the identical id; `mark_retry` runs a plain INSERT, so the
conflict is an IntegrityError that aborts and rolls back the whole retry
(no attempts increment) and surfaces through the API as a 500 — it is not
ignored.  Concretely: task "t" failed, was retried once, failed again; the
second retry request errors. -/
theorem second_retry_event_id_conflict :
    (SQLiteStateStore.mark_retry failedStore "t").isOk = true ∧
    SQLiteStateStore.mark_retry failedAgainStore "t"
      = .error (.integrityError (stable_id ["evt", "p", "t", "retry"])) ∧
    StateRoutes.retry_task failedAgainStore "t"
      = .error (.storeFault (.integrityError (stable_id ["evt", "p", "t", "retry"]))) ∧
    ((failedAgainStore.findTask "t").map (fun t => (t.state, t.attempts)))
      = some (TaskState.failed, 1) := by
  refine ⟨by decide, by rfl, by rfl, by decide⟩

/-- C7 witness: retrying the failed task "t" takes its attempts from 0
to 1. -/
theorem mark_retry_effects_witness :
    ∃ t', (runTx (SQLiteStateStore.mark_retry failedStore "t")).findTask "t" = some t' ∧
      t'.attempts = failedTask.attempts + 1 ∧ t'.state = .pending ∧ t'.last_error = none :=
  mark_retry_effects_and_attempts_monotone.1 failedStore
    (runTx (SQLiteStateStore.mark_retry failedStore "t")) "t" failedTask (by decide) (by rfl)

end TheBoard
